import Mathlib

/-!
Verification of the GEMM dispatch path of
`xla/service/gpu/onednn_matmul_utils.cc` (Intel extension for OpenXLA).

The C++ translation unit is shallowly embedded: each C++ function that the
properties talk about becomes a Lean definition with the same name,
translated line by line from the source.  `int64_t` fields become `Int`
(the code only copies and compares them, never does arithmetic on them),
device pointers become an opaque `Nat` address, and the `float` scalars
`alpha`/`beta` become exact rationals, with the literal tolerance `1e-6`
rendered as `1/1000000`.
-/

namespace OneDnnMatmulUtils

/-- XLA primitive element types appearing in `RunGemm`'s validation and
dispatch (plus a few others so that the `default` arm of the C++ switch is
non-trivial). -/
inductive PrimitiveType where
  | PRED | S8 | S16 | S32 | S64 | U8 | U16 | U32 | U64
  | F16 | BF16 | F32 | F64 | C64 | C128
  deriving DecidableEq, Repr

/-- Enum `se::blas::Transpose` as produced and inspected by this translation
unit (only the two values `kNoTranspose` / `kTranspose` ever occur). -/
inductive Transpose where
  | kNoTranspose
  | kTranspose
  deriving DecidableEq, Repr

/-- Enum `MatrixLayout::Order`. -/
inductive Order where
  | kRowMajor
  | kColumnMajor
  deriving DecidableEq, Repr

/-- Structure `MatrixLayout`: the abstract layout of one GEMM operand
(dtype, logical dimensions, storage order, strides, batch size). -/
structure MatrixLayout where
  dtype : PrimitiveType
  num_rows : Int
  num_cols : Int
  order : Order
  leading_dim_stride : Int
  batch_size : Int
  batch_stride : Int
  deriving DecidableEq, Repr

/-- Structure `MatrixDescriptor` (onednn_matmul_utils.cc:53-69): base address,
transpose flag, effective dimensions and strides.  `data` models the
`se::DeviceMemoryBase` handle as an opaque address. -/
structure MatrixDescriptor where
  data : Nat
  transpose : Transpose
  num_rows : Int
  num_cols : Int
  batch_stride : Int
  leading_dim_stride : Int
  deriving DecidableEq, Repr

/-- Method `MatrixDescriptor::reduced_dim` (onednn_matmul_utils.cc:61-63). -/
def MatrixDescriptor.reduced_dim (d : MatrixDescriptor) : Int :=
  if d.transpose = Transpose.kTranspose then d.num_rows else d.num_cols

/-- Function `GetMatrixDesc` (onednn_matmul_utils.cc:71-83): derive a backend
descriptor from a layout and a memory handle. -/
def GetMatrixDesc (layout : MatrixLayout) (data : Nat) : MatrixDescriptor :=
  let transpose : Bool := layout.order = Order.kColumnMajor
  { data := data
    transpose := if transpose then Transpose.kTranspose else Transpose.kNoTranspose
    num_rows := if transpose then layout.num_cols else layout.num_rows
    num_cols := if transpose then layout.num_rows else layout.num_cols
    batch_stride := layout.batch_stride
    leading_dim_stride := layout.leading_dim_stride }

/-- Structure `OneDnnMatMulParams` (onednn_matmul_utils.cc:85-102): the
three-dimensional shape and stride tuples handed to the backend, kept as
lists exactly as `dnnl::memory::dims` vectors. -/
structure OneDnnMatMulParams where
  a_dims : List Int
  b_dims : List Int
  c_dims : List Int
  a_strides : List Int
  b_strides : List Int
  c_strides : List Int
  deriving DecidableEq, Repr

/-- Model of `std::swap(v[2], v[1])` on a three-element `dnnl::memory::dims`
vector, as performed at onednn_matmul_utils.cc:126-131. -/
def swapLastTwo (v : List Int) : List Int :=
  match v with
  | [a, b, c] => [a, c, b]
  | v => v

/-- Function `CreateMatMulParams` (onednn_matmul_utils.cc:104-136): build the
(batch, rows, cols) shape tuples and (batch_stride, leading_dim_stride, 1)
stride tuples, swapping the innermost two entries of the lhs/rhs tuples
when the corresponding descriptor is transposed. -/
def CreateMatMulParams (batch_size : Int) (lhs rhs out : MatrixDescriptor) :
    OneDnnMatMulParams :=
  let lhs_dims : List Int := [batch_size, lhs.num_rows, lhs.num_cols]
  let rhs_dims : List Int := [batch_size, rhs.num_rows, rhs.num_cols]
  let out_dims : List Int := [batch_size, out.num_rows, out.num_cols]
  let lhs_strides : List Int := [lhs.batch_stride, lhs.leading_dim_stride, 1]
  let rhs_strides : List Int := [rhs.batch_stride, rhs.leading_dim_stride, 1]
  let out_strides : List Int := [out.batch_stride, out.leading_dim_stride, 1]
  let lhs_dims := if lhs.transpose = Transpose.kTranspose then swapLastTwo lhs_dims else lhs_dims
  let lhs_strides := if lhs.transpose = Transpose.kTranspose then swapLastTwo lhs_strides else lhs_strides
  let rhs_dims := if rhs.transpose = Transpose.kTranspose then swapLastTwo rhs_dims else rhs_dims
  let rhs_strides := if rhs.transpose = Transpose.kTranspose then swapLastTwo rhs_strides else rhs_strides
  { a_dims := lhs_dims, b_dims := rhs_dims, c_dims := out_dims
    a_strides := lhs_strides, b_strides := rhs_strides, c_strides := out_strides }

/-- A oneDNN post-operation registered on the matmul primitive
(onednn_matmul_utils.cc:170-175). -/
inductive PostOp where
  | eltwise_linear (scale shift : ℚ)
  | sum (scale : ℚ)
  deriving DecidableEq, Repr

/-- The `dnnl::post_ops` chain built by `DoGemm`
(onednn_matmul_utils.cc:170-175): append a linear post-scale when
`fabs(alpha - 1.0f) > 1e-6`, then an accumulate-sum when
`fabs(beta - 0.0f) > 1e-6`. -/
def doGemmPostOps (alpha beta : ℚ) : List PostOp :=
  let post_ops : List PostOp := []
  let post_ops := if |alpha - 1| > 1/1000000
    then post_ops ++ [PostOp.eltwise_linear alpha 0] else post_ops
  let post_ops := if |beta - 0| > 1/1000000
    then post_ops ++ [PostOp.sum beta] else post_ops
  post_ops

/-- Function `TransposeMatrixDesc` (onednn_matmul_utils.cc:205-210): flip the
transpose flag of a descriptor. -/
def TransposeMatrixDesc (matrix_desc : MatrixDescriptor) : MatrixDescriptor :=
  { matrix_desc with
    transpose := if matrix_desc.transpose = Transpose.kNoTranspose
      then Transpose.kTranspose else Transpose.kNoTranspose }

/-- Function `MakeBlasGemmCompatible` (onednn_matmul_utils.cc:212-222): if the
output descriptor is transposed, apply `C^T = B^T A^T`: swap lhs and rhs
and flip all three transpose flags.  The C++ mutates its arguments; the
embedding returns the updated (lhs, rhs, output) triple. -/
def MakeBlasGemmCompatible (lhs rhs output : MatrixDescriptor) :
    MatrixDescriptor × MatrixDescriptor × MatrixDescriptor :=
  if output.transpose = Transpose.kTranspose then
    (TransposeMatrixDesc rhs, TransposeMatrixDesc lhs, TransposeMatrixDesc output)
  else
    (lhs, rhs, output)

/-- Field `config.alpha` is `complex128`; `RunGemm` passes `config.alpha.real()`
to `DoGemm`. -/
structure ComplexQ where
  re : ℚ
  im : ℚ
  deriving DecidableEq, Repr

/-- Structure `GemmConfig`: the three operand layouts plus the scale/accumulate
scalars and the compute-precision policy (opaque here). -/
structure GemmConfig where
  lhs_layout : MatrixLayout
  rhs_layout : MatrixLayout
  output_layout : MatrixLayout
  alpha : ComplexQ
  beta : ℚ
  compute_precision : Int
  deriving DecidableEq, Repr

/-- The arguments `RunGemm` passes into the type-specialised `DoGemm`
(onednn_matmul_utils.cc:139-203, call sites 258-269), including the
post-op chain `DoGemm` registers for the given alpha/beta. -/
structure DoGemmCall where
  batch_size : Int
  m : Int
  n : Int
  k : Int
  lhs : MatrixDescriptor
  rhs : MatrixDescriptor
  output : MatrixDescriptor
  alpha : ℚ
  beta : ℚ
  post_ops : List PostOp
  deriving DecidableEq, Repr

/-- Outcome of `RunGemm` (onednn_matmul_utils.cc:226-279): either one of
the two `InternalError` returns (with the dtypes the message names), or a
dispatch to `DoGemm` specialised at the given element type. -/
inductive GemmAction where
  | mismatchError (lhs rhs output : PrimitiveType)
  | unexpectedDtypeError (output : PrimitiveType)
  | dispatch (elemType : PrimitiveType) (call : DoGemmCall)
  deriving DecidableEq, Repr

/-- Function `RunGemm` (onednn_matmul_utils.cc:226-279): derive the three
descriptors, normalise via `MakeBlasGemmCompatible`, validate dtypes, and
dispatch on the output dtype.  Backend enqueueing is abstracted: a
`dispatch` value records that (and with what arguments) `DoGemm` is
invoked. -/
def RunGemm (config : GemmConfig)
    (lhs_buffer rhs_buffer output_buffer : Nat) : GemmAction :=
  let lhs_layout := config.lhs_layout
  let rhs_layout := config.rhs_layout
  let output_layout := config.output_layout
  let m := output_layout.num_rows
  let n := output_layout.num_cols
  let k := lhs_layout.num_cols
  let lhs := GetMatrixDesc lhs_layout lhs_buffer
  let rhs := GetMatrixDesc rhs_layout rhs_buffer
  let output := GetMatrixDesc output_layout output_buffer
  let batch_size := output_layout.batch_size
  let normalized := MakeBlasGemmCompatible lhs rhs output
  let lhs := normalized.1
  let rhs := normalized.2.1
  let output := normalized.2.2
  if (output_layout.dtype = PrimitiveType.F16 ∨ output_layout.dtype = PrimitiveType.BF16 ∨
      output_layout.dtype = PrimitiveType.F32 ∨ output_layout.dtype = PrimitiveType.F64 ∨
      output_layout.dtype = PrimitiveType.C64 ∨ output_layout.dtype = PrimitiveType.C128) ∧
     (lhs_layout.dtype ≠ output_layout.dtype ∨ rhs_layout.dtype ≠ output_layout.dtype) then
    GemmAction.mismatchError lhs_layout.dtype rhs_layout.dtype output_layout.dtype
  else
    let call : DoGemmCall :=
      { batch_size := batch_size, m := m, n := n, k := k
        lhs := lhs, rhs := rhs, output := output
        alpha := config.alpha.re, beta := config.beta
        post_ops := doGemmPostOps config.alpha.re config.beta }
    match output_layout.dtype with
    | PrimitiveType.F16 => GemmAction.dispatch PrimitiveType.F16 call
    | PrimitiveType.BF16 => GemmAction.dispatch PrimitiveType.BF16 call
    | PrimitiveType.F32 => GemmAction.dispatch PrimitiveType.F32 call
    | _ => GemmAction.unexpectedDtypeError output_layout.dtype

/-- True exactly on the type-mismatch `InternalError` outcome. -/
def GemmAction.isMismatchError : GemmAction → Bool
  | GemmAction.mismatchError _ _ _ => true
  | _ => false

/-- True exactly on a dispatch to `DoGemm` (a backend call). -/
def GemmAction.isDispatch : GemmAction → Bool
  | GemmAction.dispatch _ _ => true
  | _ => false


/-! ## Concrete values used by witnesses and counterexamples -/

/-- A transposed descriptor with distinguishable dimensions and strides. -/
def mdT : MatrixDescriptor :=
  { data := 0, transpose := Transpose.kTranspose, num_rows := 2, num_cols := 3
    batch_stride := 6, leading_dim_stride := 3 }

/-- A non-transposed descriptor with distinguishable dimensions and strides. -/
def mdN : MatrixDescriptor :=
  { data := 1, transpose := Transpose.kNoTranspose, num_rows := 4, num_cols := 5
    batch_stride := 20, leading_dim_stride := 5 }

/-- A row-major `f32` layout. -/
def layoutF32 : MatrixLayout :=
  { dtype := PrimitiveType.F32, num_rows := 2, num_cols := 3
    order := Order.kRowMajor, leading_dim_stride := 3
    batch_size := 1, batch_stride := 6 }

/-- The same layout with `f16` dtype. -/
def layoutF16 : MatrixLayout := { layoutF32 with dtype := PrimitiveType.F16 }

/-- The same layout with `s32` dtype. -/
def layoutS32 : MatrixLayout := { layoutF32 with dtype := PrimitiveType.S32 }

/-- The same layout with `f64` dtype. -/
def layoutF64 : MatrixLayout := { layoutF32 with dtype := PrimitiveType.F64 }

/-- Config with `f32` inputs and an `s32` output: a dtype mismatch with an
integer output dtype. -/
def cfgS32mixed : GemmConfig :=
  { lhs_layout := layoutF32, rhs_layout := layoutF32, output_layout := layoutS32
    alpha := { re := 1, im := 0 }, beta := 0, compute_precision := 0 }

/-- Config with an `f32` lhs, `f64` rhs and `f64` output: a dtype mismatch
with a validated-but-undispatched output dtype. -/
def cfgF64mixed : GemmConfig :=
  { lhs_layout := layoutF32, rhs_layout := layoutF64, output_layout := layoutF64
    alpha := { re := 1, im := 0 }, beta := 0, compute_precision := 0 }

/-- Config whose three layouts all have dtype `f64`. -/
def cfgF64all : GemmConfig :=
  { lhs_layout := layoutF64, rhs_layout := layoutF64, output_layout := layoutF64
    alpha := { re := 1, im := 0 }, beta := 0, compute_precision := 0 }

/-- Config with `f32` inputs and an `f16` output: a dtype mismatch with a
supported floating output dtype. -/
def cfgF16mixed : GemmConfig :=
  { lhs_layout := layoutF32, rhs_layout := layoutF32, output_layout := layoutF16
    alpha := { re := 1, im := 0 }, beta := 0, compute_precision := 0 }

/-! ## Claims -/

/-- C5: for every layout and memory handle, `GetMatrixDesc` marks the
descriptor transposed exactly when the layout is column-major; in that
case `num_rows`/`num_cols` are the layout's `num_cols`/`num_rows`,
otherwise they are copied unchanged; `batch_stride`,
`leading_dim_stride` and the memory handle are copied unchanged.  The
embedding is a total pure function, so the operation never fails and
does not mutate its input. -/
theorem getMatrixDesc_fields (layout : MatrixLayout) (data : Nat) :
    ((GetMatrixDesc layout data).transpose = Transpose.kTranspose ↔
      layout.order = Order.kColumnMajor) ∧
    (GetMatrixDesc layout data).num_rows =
      (if layout.order = Order.kColumnMajor then layout.num_cols else layout.num_rows) ∧
    (GetMatrixDesc layout data).num_cols =
      (if layout.order = Order.kColumnMajor then layout.num_rows else layout.num_cols) ∧
    (GetMatrixDesc layout data).batch_stride = layout.batch_stride ∧
    (GetMatrixDesc layout data).leading_dim_stride = layout.leading_dim_stride ∧
    (GetMatrixDesc layout data).data = data := by
  by_cases h : layout.order = Order.kColumnMajor <;>
    simp [GetMatrixDesc, h]

/-- C6: `reduced_dim` of a descriptor is `num_rows` when the descriptor is
marked transposed and `num_cols` otherwise. -/
theorem reduced_dim_eq (d : MatrixDescriptor) :
    (d.transpose = Transpose.kTranspose → d.reduced_dim = d.num_rows) ∧
    (d.transpose ≠ Transpose.kTranspose → d.reduced_dim = d.num_cols) := by
  unfold MatrixDescriptor.reduced_dim
  by_cases h : d.transpose = Transpose.kTranspose <;> simp [h]

/-- Witness for C6, evaluated at one transposed and one non-transposed
concrete descriptor. -/
theorem reduced_dim_eq_witness :
    mdT.reduced_dim = mdT.num_rows ∧ mdN.reduced_dim = mdN.num_cols :=
  ⟨(reduced_dim_eq mdT).1 rfl, (reduced_dim_eq mdN).2 (by decide)⟩

/-- C1: after `MakeBlasGemmCompatible` the output descriptor is never
marked transposed; and when the incoming output descriptor is marked
transposed the result swaps lhs with rhs and flips the transpose flag on
all three descriptors. -/
theorem makeBlasGemmCompatible_output_nontransposed
    (lhs rhs output : MatrixDescriptor) :
    (MakeBlasGemmCompatible lhs rhs output).2.2.transpose = Transpose.kNoTranspose ∧
    (output.transpose = Transpose.kTranspose →
      MakeBlasGemmCompatible lhs rhs output =
        (TransposeMatrixDesc rhs, TransposeMatrixDesc lhs, TransposeMatrixDesc output)) := by
  unfold MakeBlasGemmCompatible
  split_ifs with h
  · exact ⟨by simp [TransposeMatrixDesc, h], fun _ => rfl⟩
  · refine ⟨?_, fun hc => absurd hc h⟩
    cases hT : output.transpose
    · rfl
    · exact absurd hT h

/-- Witness for C1 at a concrete transposed output descriptor. -/
theorem makeBlasGemmCompatible_output_nontransposed_witness :
    (MakeBlasGemmCompatible mdN mdN mdT).2.2.transpose = Transpose.kNoTranspose ∧
    MakeBlasGemmCompatible mdN mdN mdT =
      (TransposeMatrixDesc mdN, TransposeMatrixDesc mdN, TransposeMatrixDesc mdT) :=
  ⟨(makeBlasGemmCompatible_output_nontransposed mdN mdN mdT).1,
   (makeBlasGemmCompatible_output_nontransposed mdN mdN mdT).2 rfl⟩

/-- C9: when the output descriptor is not marked transposed,
`MakeBlasGemmCompatible` leaves the triple unchanged; consequently the
transform is idempotent. -/
theorem makeBlasGemmCompatible_idempotent (lhs rhs output : MatrixDescriptor) :
    (output.transpose = Transpose.kNoTranspose →
      MakeBlasGemmCompatible lhs rhs output = (lhs, rhs, output)) ∧
    MakeBlasGemmCompatible (MakeBlasGemmCompatible lhs rhs output).1
        (MakeBlasGemmCompatible lhs rhs output).2.1
        (MakeBlasGemmCompatible lhs rhs output).2.2 =
      MakeBlasGemmCompatible lhs rhs output := by
  cases hT : output.transpose <;>
    simp [MakeBlasGemmCompatible, TransposeMatrixDesc, hT]

/-- Witness for C9 at a concrete non-transposed output descriptor. -/
theorem makeBlasGemmCompatible_idempotent_witness :
    MakeBlasGemmCompatible mdN mdN mdN = (mdN, mdN, mdN) :=
  (makeBlasGemmCompatible_idempotent mdN mdN mdN).1 rfl

/-- C8: `DoGemm` registers a linear post-scale exactly when alpha differs
from 1.0 by more than 1e-6 and an accumulate-sum exactly when beta
differs from 0.0 by more than 1e-6; with alpha = 2, beta = 1 both are
registered, and with alpha = 1, beta = 0 neither is. -/
theorem doGemmPostOps_registration (alpha beta : ℚ) :
    ((∃ s t, PostOp.eltwise_linear s t ∈ doGemmPostOps alpha beta) ↔
      |alpha - 1| > 1/1000000) ∧
    ((∃ s, PostOp.sum s ∈ doGemmPostOps alpha beta) ↔
      |beta - 0| > 1/1000000) ∧
    doGemmPostOps 1 0 = [] ∧
    doGemmPostOps 2 1 = [PostOp.eltwise_linear 2 0, PostOp.sum 1] := by
  refine ⟨?_, ?_, by norm_num [doGemmPostOps], by norm_num [doGemmPostOps]⟩ <;>
    (unfold doGemmPostOps; split_ifs with h1 h2 <;> simp_all)

/-- Counterexample to C7: the output operand's shape and stride tuples
are never swapped by `CreateMatMulParams`, even when the output
descriptor is marked transposed. -/
theorem createMatMulParams_output_swap_cex :
    mdT.transpose = Transpose.kTranspose ∧
    (CreateMatMulParams 1 mdN mdN mdT).c_dims = [1, mdT.num_rows, mdT.num_cols] ∧
    (CreateMatMulParams 1 mdN mdN mdT).c_dims ≠ [1, mdT.num_cols, mdT.num_rows] ∧
    (CreateMatMulParams 1 mdN mdN mdT).c_strides =
      [mdT.batch_stride, mdT.leading_dim_stride, 1] := by decide

/-- C7 (amended): `CreateMatMulParams` builds each operand's stride
tuple as (batch_stride, leading_dim_stride, 1) and its shape tuple as
(batch_size, num_rows, num_cols); for the lhs and rhs operands marked
transposed the last two entries of both tuples are swapped, while the
output operand's tuples are never swapped regardless of its transpose
flag. -/
theorem createMatMulParams_fields (batch_size : Int)
    (lhs rhs out : MatrixDescriptor) :
    (CreateMatMulParams batch_size lhs rhs out).a_dims =
      (if lhs.transpose = Transpose.kTranspose
        then [batch_size, lhs.num_cols, lhs.num_rows]
        else [batch_size, lhs.num_rows, lhs.num_cols]) ∧
    (CreateMatMulParams batch_size lhs rhs out).a_strides =
      (if lhs.transpose = Transpose.kTranspose
        then [lhs.batch_stride, 1, lhs.leading_dim_stride]
        else [lhs.batch_stride, lhs.leading_dim_stride, 1]) ∧
    (CreateMatMulParams batch_size lhs rhs out).b_dims =
      (if rhs.transpose = Transpose.kTranspose
        then [batch_size, rhs.num_cols, rhs.num_rows]
        else [batch_size, rhs.num_rows, rhs.num_cols]) ∧
    (CreateMatMulParams batch_size lhs rhs out).b_strides =
      (if rhs.transpose = Transpose.kTranspose
        then [rhs.batch_stride, 1, rhs.leading_dim_stride]
        else [rhs.batch_stride, rhs.leading_dim_stride, 1]) ∧
    (CreateMatMulParams batch_size lhs rhs out).c_dims =
      [batch_size, out.num_rows, out.num_cols] ∧
    (CreateMatMulParams batch_size lhs rhs out).c_strides =
      [out.batch_stride, out.leading_dim_stride, 1] := by
  by_cases h1 : lhs.transpose = Transpose.kTranspose <;>
    by_cases h2 : rhs.transpose = Transpose.kTranspose <;>
      simp [CreateMatMulParams, swapLastTwo, h1, h2]


/-- C10: for a config with `s32` output dtype, `RunGemm` returns the
"Unexpected GEMM dtype" error for every combination of lhs/rhs dtypes
and buffers: the type-mismatch validation is skipped for integer output
dtypes. -/
theorem runGemm_s32_unexpected (config : GemmConfig)
    (a b c : Nat) (h : config.output_layout.dtype = PrimitiveType.S32) :
    RunGemm config a b c =
      GemmAction.unexpectedDtypeError PrimitiveType.S32 := by
  simp [RunGemm, h]

/-- Witness for C10 at a config whose lhs/rhs dtypes (`f32`) differ from
the `s32` output dtype. -/
theorem runGemm_s32_unexpected_witness :
    RunGemm cfgS32mixed 0 0 0 =
      GemmAction.unexpectedDtypeError PrimitiveType.S32 :=
  runGemm_s32_unexpected cfgS32mixed 0 0 0 rfl

/-- Counterexample to C2: for `f32` inputs and an `s32` output (a dtype
mismatch among the three), `RunGemm` fails with the "unexpected dtype"
error, not the type-mismatch error. -/
theorem runGemm_mismatch_claim_cex :
    cfgS32mixed.lhs_layout.dtype ≠ cfgS32mixed.output_layout.dtype ∧
    RunGemm cfgS32mixed 1 2 3 =
      GemmAction.unexpectedDtypeError PrimitiveType.S32 ∧
    (RunGemm cfgS32mixed 1 2 3).isMismatchError = false := by decide

/-- C2 (amended): for every config whose output dtype is one of the
validated set (f16, bf16, f32, f64, c64, c128) and whose lhs or rhs
dtype differs from the output dtype, `RunGemm` returns the
type-mismatch error and never reaches a backend dispatch. -/
theorem runGemm_mismatch_fails (config : GemmConfig) (a b c : Nat)
    (hset : config.output_layout.dtype = PrimitiveType.F16 ∨
      config.output_layout.dtype = PrimitiveType.BF16 ∨
      config.output_layout.dtype = PrimitiveType.F32 ∨
      config.output_layout.dtype = PrimitiveType.F64 ∨
      config.output_layout.dtype = PrimitiveType.C64 ∨
      config.output_layout.dtype = PrimitiveType.C128)
    (hmix : config.lhs_layout.dtype ≠ config.output_layout.dtype ∨
      config.rhs_layout.dtype ≠ config.output_layout.dtype) :
    (RunGemm config a b c).isMismatchError = true ∧
    (RunGemm config a b c).isDispatch = false := by
  have hgoal : RunGemm config a b c =
      GemmAction.mismatchError config.lhs_layout.dtype
        config.rhs_layout.dtype config.output_layout.dtype := by
    unfold RunGemm
    rw [if_pos ⟨hset, hmix⟩]
  rw [hgoal]
  exact ⟨rfl, rfl⟩

/-- Witness for C2 at a config with `f32` inputs and an `f16` output. -/
theorem runGemm_mismatch_fails_witness :
    (RunGemm cfgF16mixed 0 0 0).isMismatchError = true ∧
    (RunGemm cfgF16mixed 0 0 0).isDispatch = false :=
  runGemm_mismatch_fails cfgF16mixed 0 0 0 (Or.inl rfl) (Or.inl (by decide))

/-- C3: for every config whose output dtype is one of the validated set
(f16, bf16, f32, f64, c64, c128) and whose lhs or rhs dtype differs
from the output dtype, `RunGemm` returns the type-mismatch error
carrying all three dtypes. -/
theorem runGemm_mismatch_names_dtypes (config : GemmConfig) (a b c : Nat)
    (hset : config.output_layout.dtype = PrimitiveType.F16 ∨
      config.output_layout.dtype = PrimitiveType.BF16 ∨
      config.output_layout.dtype = PrimitiveType.F32 ∨
      config.output_layout.dtype = PrimitiveType.F64 ∨
      config.output_layout.dtype = PrimitiveType.C64 ∨
      config.output_layout.dtype = PrimitiveType.C128)
    (hmix : config.lhs_layout.dtype ≠ config.output_layout.dtype ∨
      config.rhs_layout.dtype ≠ config.output_layout.dtype) :
    RunGemm config a b c =
      GemmAction.mismatchError config.lhs_layout.dtype
        config.rhs_layout.dtype config.output_layout.dtype := by
  unfold RunGemm
  rw [if_pos ⟨hset, hmix⟩]

/-- Witness for C3 at a config with an `f32` lhs and `f64` rhs/output. -/
theorem runGemm_mismatch_names_dtypes_witness :
    RunGemm cfgF64mixed 0 0 0 =
      GemmAction.mismatchError PrimitiveType.F32 PrimitiveType.F64
        PrimitiveType.F64 :=
  runGemm_mismatch_names_dtypes cfgF64mixed 0 0 0
    (Or.inr (Or.inr (Or.inr (Or.inl rfl)))) (Or.inl (by decide))

/-- Counterexample to C4: for an `f64` output with an `f32` lhs,
`RunGemm` fails with the type-mismatch error, not the "unexpected
dtype" error. -/
theorem runGemm_unexpected_claim_cex :
    cfgF64mixed.output_layout.dtype = PrimitiveType.F64 ∧
    RunGemm cfgF64mixed 1 2 3 =
      GemmAction.mismatchError PrimitiveType.F32 PrimitiveType.F64
        PrimitiveType.F64 ∧
    RunGemm cfgF64mixed 1 2 3 ≠
      GemmAction.unexpectedDtypeError PrimitiveType.F64 := by decide

/-- C4 (amended): for every config whose output dtype is in {s32, f64,
c64, c128}, `RunGemm` fails unconditionally (it never dispatches to the
backend); the error is the "unexpected dtype" error when the output
dtype is s32 or when both lhs and rhs dtypes equal the output dtype,
and the type-mismatch error otherwise. -/
theorem runGemm_unsupported_never_dispatches (config : GemmConfig)
    (a b c : Nat)
    (hset : config.output_layout.dtype = PrimitiveType.S32 ∨
      config.output_layout.dtype = PrimitiveType.F64 ∨
      config.output_layout.dtype = PrimitiveType.C64 ∨
      config.output_layout.dtype = PrimitiveType.C128) :
    (RunGemm config a b c).isDispatch = false ∧
    (config.output_layout.dtype = PrimitiveType.S32 ∨
      (config.lhs_layout.dtype = config.output_layout.dtype ∧
       config.rhs_layout.dtype = config.output_layout.dtype) →
      RunGemm config a b c =
        GemmAction.unexpectedDtypeError config.output_layout.dtype) ∧
    (config.output_layout.dtype ≠ PrimitiveType.S32 ∧
      (config.lhs_layout.dtype ≠ config.output_layout.dtype ∨
       config.rhs_layout.dtype ≠ config.output_layout.dtype) →
      RunGemm config a b c =
        GemmAction.mismatchError config.lhs_layout.dtype
          config.rhs_layout.dtype config.output_layout.dtype) := by
  rcases hset with h | h | h | h <;>
    simp [RunGemm, h, GemmAction.isDispatch] <;>
    split_ifs with hm <;>
    simp_all [GemmAction.isDispatch] <;>
    tauto

/-- Witness for C4, applied to a config whose three dtypes are all
`f64` (hitting the "unexpected dtype" error) and to a config with an
`f32` lhs against an `f64` output (hitting the type-mismatch error). -/
theorem runGemm_unsupported_never_dispatches_witness :
    ((RunGemm cfgF64all 0 0 0).isDispatch = false ∧
     RunGemm cfgF64all 0 0 0 =
       GemmAction.unexpectedDtypeError PrimitiveType.F64) ∧
    ((RunGemm cfgF64mixed 0 0 0).isDispatch = false ∧
     RunGemm cfgF64mixed 0 0 0 =
       GemmAction.mismatchError PrimitiveType.F32 PrimitiveType.F64
         PrimitiveType.F64) :=
  ⟨⟨(runGemm_unsupported_never_dispatches cfgF64all 0 0 0
       (Or.inr (Or.inl rfl))).1,
    (runGemm_unsupported_never_dispatches cfgF64all 0 0 0
       (Or.inr (Or.inl rfl))).2.1 (Or.inr ⟨rfl, rfl⟩)⟩,
   ⟨(runGemm_unsupported_never_dispatches cfgF64mixed 0 0 0
       (Or.inr (Or.inl rfl))).1,
    (runGemm_unsupported_never_dispatches cfgF64mixed 0 0 0
       (Or.inr (Or.inl rfl))).2.2 ⟨by decide, Or.inl (by decide)⟩⟩⟩

end OneDnnMatmulUtils
